import Mathlib

/-!
Verification of the offline-resilience subsystem of the Emergency-app
repository: GeoMath (distance and ETA), the ResponderMatcher pipeline
(`getNearbyResponders`), the NetworkService monitor, the
OfflineQueueService durable queue, the SMSService offline channel and the
AppProvider emergency-session coordinator.

Each definition is a shallow embedding of the corresponding TypeScript
function, translated directly from the source files
(`src/mobile/src/services/offlineQueueService.ts`,
`src/mobile/src/services/emergencyApiService.ts`,
`src/mobile/src/utils/geofencing.ts`, the SMS service and the
AppProvider context module).  JavaScript numbers are modelled as `ℝ` for
the transcendental Haversine formula and as `ℚ` elsewhere; `async`
functions whose awaited collaborators can produce different outcomes take
those outcomes as explicit parameters; a `throw` caught by the function
itself is one of those outcome constructors.
-/

namespace EmergencyApp

/-- Location value type (source `src/mobile/src/types`): latitude and
longitude, with the optional accuracy field carried along.  The numeric
type is a parameter so that the transcendental geometry uses `ℝ` while the
executable coordinator model uses `ℚ`. -/
structure Location (α : Type) where
  latitude : α
  longitude : α
  accuracy : Option α := none
deriving DecidableEq

/-! ## GeoMath: `toRad`, `calculateDistance` (geofencing.ts) and
`calculateETA` (emergencyApiService.ts) -/

/-- `toRad(degrees) = degrees * (Math.PI / 180)` from `geofencing.ts`. -/
noncomputable def toRad (degrees : ℝ) : ℝ := degrees * (Real.pi / 180)

/-- JavaScript `Math.atan2(y, x)` on real arguments (the float sign-of-zero
distinctions collapse in the real model, where `atan2 0 0 = 0`). -/
noncomputable def atan2 (y x : ℝ) : ℝ :=
  if 0 < x then Real.arctan (y / x)
  else if x < 0 ∧ 0 ≤ y then Real.arctan (y / x) + Real.pi
  else if x < 0 ∧ y < 0 then Real.arctan (y / x) - Real.pi
  else if x = 0 ∧ 0 < y then Real.pi / 2
  else if x = 0 ∧ y < 0 then -(Real.pi / 2)
  else 0

/-- `calculateDistance(point1, point2)` from `geofencing.ts` (the private
`EmergencyApiService.calculateDistance(lat1, lon1, lat2, lon2)` is the
same Haversine formula over unpacked coordinates): Earth radius 6371 km,
`a = sin²(dLat/2) + sin²(dLon/2)·cos(lat1)·cos(lat2)`,
`c = 2·atan2(√a, √(1-a))`, result `R·c`. -/
noncomputable def calculateDistance (point1 point2 : Location ℝ) : ℝ :=
  let R : ℝ := 6371
  let dLat := toRad (point2.latitude - point1.latitude)
  let dLon := toRad (point2.longitude - point1.longitude)
  let lat1 := toRad point1.latitude
  let lat2 := toRad point2.latitude
  let a := Real.sin (dLat / 2) * Real.sin (dLat / 2) +
      Real.sin (dLon / 2) * Real.sin (dLon / 2) * Real.cos lat1 * Real.cos lat2
  let c := 2 * atan2 (Real.sqrt a) (Real.sqrt (1 - a))
  R * c

/-- The `a` subterm of the Haversine formula, named for the proofs below;
`calculateDistance_eq` checks definitionally that it is the same term. -/
noncomputable def havA (point1 point2 : Location ℝ) : ℝ :=
  Real.sin (toRad (point2.latitude - point1.latitude) / 2) *
      Real.sin (toRad (point2.latitude - point1.latitude) / 2) +
    Real.sin (toRad (point2.longitude - point1.longitude) / 2) *
        Real.sin (toRad (point2.longitude - point1.longitude) / 2) *
        Real.cos (toRad point1.latitude) * Real.cos (toRad point2.latitude)

theorem calculateDistance_eq (p q : Location ℝ) :
    calculateDistance p q =
      6371 * (2 * atan2 (Real.sqrt (havA p q)) (Real.sqrt (1 - havA p q))) := rfl

theorem havA_comm (p q : Location ℝ) : havA q p = havA p q := by
  unfold havA toRad
  have e1 : Real.sin ((p.latitude - q.latitude) * (Real.pi / 180) / 2) =
      -Real.sin ((q.latitude - p.latitude) * (Real.pi / 180) / 2) := by
    rw [show (p.latitude - q.latitude) * (Real.pi / 180) / 2 =
        -((q.latitude - p.latitude) * (Real.pi / 180) / 2) from by ring,
      Real.sin_neg]
  have e2 : Real.sin ((p.longitude - q.longitude) * (Real.pi / 180) / 2) =
      -Real.sin ((q.longitude - p.longitude) * (Real.pi / 180) / 2) := by
    rw [show (p.longitude - q.longitude) * (Real.pi / 180) / 2 =
        -((q.longitude - p.longitude) * (Real.pi / 180) / 2) from by ring,
      Real.sin_neg]
  rw [e1, e2]
  ring

theorem havA_self (p : Location ℝ) : havA p p = 0 := by
  unfold havA toRad
  simp [sub_self]

/-- `calculateETA(distanceKm)` from `emergencyApiService.ts`:
`avgSpeedKmH = 30`, `etaMinutes = Math.ceil(distanceKm / avgSpeedKmH * 60)`,
result `Math.max(etaMinutes, 1)`. -/
def calculateETA (distanceKm : ℚ) : ℤ :=
  let avgSpeedKmH : ℚ := 30
  let etaMinutes : ℤ := ⌈distanceKm / avgSpeedKmH * 60⌉
  max etaMinutes 1

/-! ## ResponderMatcher: `getNearbyResponders` (emergencyApiService.ts) -/

/-- A row of the `responders` table as fetched by
`EmergencyApiService.getNearbyResponders` (the fields it reads). -/
structure SupabaseResponder where
  id : Nat
  name : String
  type : String
  phone : String
  latitude : ℚ
  longitude : ℚ
  is_available : Bool
deriving DecidableEq

/-- The `NearbyResponder` record built by `getNearbyResponders`. -/
structure NearbyResponder where
  id : Nat
  name : String
  type : String
  phone : String
  latitude : ℚ
  longitude : ℚ
  distance : ℚ
  estimatedArrival : ℤ
deriving DecidableEq

/-- One insertion step of a stable ascending sort on `distance`: the new
element goes after every element it is not strictly closer than, so
elements at equal distance keep their original relative order. -/
def insertByDistance (x : NearbyResponder) :
    List NearbyResponder → List NearbyResponder
  | [] => [x]
  | y :: ys =>
    if x.distance ≤ y.distance then x :: y :: ys
    else y :: insertByDistance x ys

/-- Stable ascending sort on `distance`, modelling the source's
`.sort((a, b) => a.distance - b.distance)`: `Array.prototype.sort` is
stable (ES2019) and a comparator value of 0 on equal distances keeps the
original order, and the stable ascending permutation of a list is unique,
so any stable sort is an extensionally faithful model. -/
def sortByDistance : List NearbyResponder → List NearbyResponder
  | [] => []
  | x :: xs => insertByDistance x (sortByDistance xs)

/-- The pipeline of `getNearbyResponders` before its final `.sort`:
the `is_available` filter (applied by the database query
`.eq('is_available', true)`), the map attaching `distance` (computed by
the private Haversine `calculateDistance(lat1, lon1, lat2, lon2)`, passed
here as the function `dist`) with `estimatedArrival: 0`, the
`.filter(r => r.distance <= radiusKm)`, and the map attaching
`estimatedArrival: this.calculateETA(r.distance)`. -/
def nearbyUnsorted (dist : ℚ → ℚ → ℚ → ℚ → ℚ) (location : Location ℚ)
    (radiusKm : ℚ) (responders : List SupabaseResponder) :
    List NearbyResponder :=
  ((((responders.filter fun r => r.is_available).map fun r =>
      ({ id := r.id, name := r.name, type := r.type, phone := r.phone,
         latitude := r.latitude, longitude := r.longitude,
         distance := dist location.latitude location.longitude
           r.latitude r.longitude,
         estimatedArrival := 0 } : NearbyResponder)).filter fun r =>
        decide (r.distance ≤ radiusKm)).map fun r =>
    { r with estimatedArrival := calculateETA r.distance })

/-- `EmergencyApiService.getNearbyResponders(location, radiusKm)` applied
to the list of rows the database returned: the pipeline above followed by
the stable ascending sort on distance. -/
def getNearbyResponders (dist : ℚ → ℚ → ℚ → ℚ → ℚ) (location : Location ℚ)
    (radiusKm : ℚ) (responders : List SupabaseResponder) :
    List NearbyResponder :=
  sortByDistance (nearbyUnsorted dist location radiusKm responders)

theorem insertByDistance_perm (x : NearbyResponder) (l : List NearbyResponder) :
    List.Perm (insertByDistance x l) (x :: l) := by
  induction l with
  | nil => simp [insertByDistance]
  | cons y ys ih =>
    by_cases h : x.distance ≤ y.distance
    · simp [insertByDistance, h]
    · simp only [insertByDistance, if_neg h]
      exact (ih.cons y).trans (List.Perm.swap x y ys)

theorem sortByDistance_perm (l : List NearbyResponder) :
    List.Perm (sortByDistance l) l := by
  induction l with
  | nil => simp [sortByDistance]
  | cons x xs ih =>
    exact (insertByDistance_perm x (sortByDistance xs)).trans (ih.cons x)

theorem insertByDistance_pairwise (x : NearbyResponder)
    (l : List NearbyResponder)
    (h : l.Pairwise fun a b => a.distance ≤ b.distance) :
    (insertByDistance x l).Pairwise fun a b => a.distance ≤ b.distance := by
  induction l with
  | nil => simp [insertByDistance]
  | cons y ys ih =>
    rcases List.pairwise_cons.mp h with ⟨hy, hys⟩
    by_cases hxy : x.distance ≤ y.distance
    · rw [insertByDistance, if_pos hxy]
      refine List.pairwise_cons.mpr ⟨?_, h⟩
      intro z hz
      rcases List.mem_cons.mp hz with rfl | hz
      · exact hxy
      · exact le_trans hxy (hy z hz)
    · rw [insertByDistance, if_neg hxy]
      refine List.pairwise_cons.mpr ⟨?_, ih hys⟩
      intro z hz
      rcases List.mem_cons.mp ((insertByDistance_perm x ys).mem_iff.mp hz)
        with rfl | hz
      · exact le_of_not_le hxy
      · exact hy z hz

theorem sortByDistance_pairwise (l : List NearbyResponder) :
    (sortByDistance l).Pairwise fun a b => a.distance ≤ b.distance := by
  induction l with
  | nil => simp [sortByDistance]
  | cons x xs ih => exact insertByDistance_pairwise x (sortByDistance xs) ih

theorem insertByDistance_filter_eq (x : NearbyResponder) (q : ℚ)
    (l : List NearbyResponder) :
    (insertByDistance x l).filter (fun r => decide (r.distance = q)) =
      if x.distance = q then
        x :: l.filter (fun r => decide (r.distance = q))
      else l.filter (fun r => decide (r.distance = q)) := by
  induction l with
  | nil =>
    by_cases h : x.distance = q <;> simp [insertByDistance, List.filter, h]
  | cons y ys ih =>
    by_cases hxy : x.distance ≤ y.distance
    · rw [insertByDistance, if_pos hxy]
      by_cases h : x.distance = q <;> simp [List.filter_cons, h]
    · rw [insertByDistance, if_neg hxy]
      have hyx : y.distance < x.distance := lt_of_not_le hxy
      by_cases h : x.distance = q
      · have hy : ¬ y.distance = q := by
          intro hc
          exact absurd (hc.trans h.symm) (ne_of_lt hyx)
        simp [List.filter_cons, hy, ih, h]
      · by_cases hy : y.distance = q <;> simp [List.filter_cons, hy, ih, h]

/-- Stability of the sort: for every distance value `q`, the sorted list
restricted to elements at distance `q` is exactly the input list
restricted to those elements, in the same order. -/
theorem sortByDistance_filter_eq (q : ℚ) (l : List NearbyResponder) :
    (sortByDistance l).filter (fun r => decide (r.distance = q)) =
      l.filter (fun r => decide (r.distance = q)) := by
  induction l with
  | nil => rfl
  | cons x xs ih =>
    rw [sortByDistance, insertByDistance_filter_eq]
    by_cases h : x.distance = q <;> simp [List.filter_cons, h, ih]

/-! ## NetworkService (offlineQueueService.ts, second module) -/

/-- The two connectivity listeners the app registers:
`AppProvider`'s inline callback (registered during service start-up,
part_001 lines 89-97) and `OfflineQueueService.onNetworkChange`
(registered by the queue's start-up, offlineQueueService.ts line 33). -/
inductive NetworkListener
  | appProvider
  | offlineQueue
deriving DecidableEq

/-- How many `processQueue` invocations a listener performs when notified
with the new connectivity value.  Both registered callbacks run
`processQueue` exactly when the new state is connected:
`AppProvider`'s does `if (connected) offlineQueueService.processQueue()`,
and `onNetworkChange` does `if (isConnected) await this.processQueue()`. -/
def listenerProcessQueueCalls (l : NetworkListener) (isConnected : Bool) :
    Nat :=
  match l with
  | .appProvider => if isConnected then 1 else 0
  | .offlineQueue => if isConnected then 1 else 0

/-- `NetworkService` instance state: the `isConnected` flag and the
registered listener list (in registration order). -/
structure NetworkServiceState where
  isConnected : Bool
  listeners : List NetworkListener
deriving DecidableEq

/-- `NetworkService.getStatus()`. -/
def getStatus (ns : NetworkServiceState) : Bool := ns.isConnected

/-- `NetworkService.notifyListeners()`: calls every listener with the
current `isConnected`; the result counts the `processQueue` invocations
those callbacks perform. -/
def notifyListeners (ns : NetworkServiceState) : Nat :=
  (ns.listeners.map fun l => listenerProcessQueueCalls l ns.isConnected).sum

/-- `NetworkService.handleNetworkChange(state)`: records
`state.isConnected ?? false` (the OS report is a nullable boolean) and
notifies listeners only if the value changed.  Returns the new service
state together with the number of `processQueue` invocations the
notification triggered. -/
def handleNetworkChange (state_isConnected : Option Bool)
    (ns : NetworkServiceState) : NetworkServiceState × Nat :=
  let wasConnected := ns.isConnected
  let ns' := { ns with isConnected := state_isConnected.getD false }
  if wasConnected ≠ ns'.isConnected then (ns', notifyListeners ns')
  else (ns', 0)

/-- Outcome of the awaited `NetInfo.fetch()` inside
`NetworkService.checkConnection`: a state with a nullable `isConnected`,
or a raised error (caught by the `catch` block). -/
inductive NetInfoFetch
  | ok (isConnected : Option Bool)
  | err
deriving DecidableEq

/-- `NetworkService.checkConnection()`: on a successful fetch, store
`state.isConnected ?? false` and return it; if the fetch raises, the
`catch` returns `false` (the stored flag is left untouched). -/
def checkConnection (fetch : NetInfoFetch) (ns : NetworkServiceState) :
    NetworkServiceState × Bool :=
  match fetch with
  | .ok c =>
    let v := c.getD false
    ({ ns with isConnected := v }, v)
  | .err => (ns, false)

/-! ## OfflineQueueService (offlineQueueService.ts) -/

/-- `MAX_RETRIES` from offlineQueueService.ts. -/
def MAX_RETRIES : Nat := 5

/-- The operation kinds of `QueuedOperation['type']`. -/
inductive OpType
  | emergency_report
  | location_update
  | incident_resolve
deriving DecidableEq

/-- `QueuedOperation`, with the opaque `data` payload as a type
parameter.  `id` and `timestamp` come from `Date.now()` plus a random
suffix in the source; the model draws both from the service's fresh-id
counter, keeping the intent that concurrently enqueued ids are distinct. -/
structure QueuedOperation (π : Type) where
  id : Nat
  type : OpType
  data : π
  timestamp : Nat
  retries : Nat
deriving DecidableEq

/-- What a registered sync handler does when invoked on a payload: it
either returns a boolean (`ok`) or raises (`exn`), and in either case may
first have called back into `enqueue`, contributing the listed
kind/payload pairs in order.  (Those nested `enqueue` calls also invoke
`processQueue`, which returns immediately because `isProcessing` is set
for the whole pass, so their only effect is the append.) -/
inductive HandlerOutcome (π : Type)
  | ok (success : Bool) (enqueued : List (OpType × π))
  | exn (enqueued : List (OpType × π))

/-- The `syncCallbacks` map: at most one handler per operation type. -/
def Handlers (π : Type) : Type := OpType → Option (π → HandlerOutcome π)

/-- `OfflineQueueService` instance state: the in-memory queue, the
fresh-id counter and the reentrancy flag. -/
structure QueueState (π : Type) where
  queue : List (QueuedOperation π)
  nextId : Nat
  isProcessing : Bool
deriving DecidableEq

/-- Turn the kind/payload pairs a handler enqueued into fresh
`QueuedOperation`s with retries 0 and consecutive fresh ids. -/
def spawnOps {π : Type} (nextId : Nat) :
    List (OpType × π) → List (QueuedOperation π)
  | [] => []
  | (t, d) :: rest =>
    { id := nextId, type := t, data := d, timestamp := nextId,
      retries := 0 } :: spawnOps (nextId + 1) rest

/-- The `for (const operation of this.queue)` loop of `processQueue`.
`done` holds the already-visited prefix of the live array (with any
retry increments applied), `todo` the part still to visit.  A JavaScript
`for...of` array iterator re-reads the live length each step, so payloads
pushed by a handler mid-pass land at the end of `todo` and are visited by
the same loop.  `processed` accumulates the ids pushed for removal
(successes, and `false`-failures whose incremented retry count reached
`MAX_RETRIES`; the `catch` branch for a raising handler increments the
count but pushes nothing).  `fuel` bounds the number of iterations, since
handlers that keep enqueuing keep the source loop running as well;
`none` means the fuel ran out before the loop finished. -/
def runPass {π : Type} (handlers : Handlers π) :
    Nat → List (QueuedOperation π) → List (QueuedOperation π) →
    List Nat → Nat →
    Option (List (QueuedOperation π) × List Nat × Nat)
  | _, done, [], processed, nextId => some (done, processed, nextId)
  | 0, _, _ :: _, _, _ => none
  | fuel + 1, done, op :: rest, processed, nextId =>
    match handlers op.type with
    | none => runPass handlers fuel (done ++ [op]) rest processed nextId
    | some handler =>
      match handler op.data with
      | .ok true newOps =>
        runPass handlers fuel (done ++ [op])
          (rest ++ spawnOps nextId newOps)
          (processed ++ [op.id]) (nextId + newOps.length)
      | .ok false newOps =>
        let op' := { op with retries := op.retries + 1 }
        let processed' :=
          if MAX_RETRIES ≤ op'.retries then processed ++ [op.id]
          else processed
        runPass handlers fuel (done ++ [op'])
          (rest ++ spawnOps nextId newOps)
          processed' (nextId + newOps.length)
      | .exn newOps =>
        runPass handlers fuel (done ++ [{ op with retries := op.retries + 1 }])
          (rest ++ spawnOps nextId newOps)
          processed (nextId + newOps.length)

/-- `OfflineQueueService.processQueue()`: return unchanged if a pass is
already running or the queue is empty, or if `networkService.getStatus()`
is false; otherwise run the loop and then remove every operation whose id
was pushed to `processed` (`this.queue.filter(op =>
!processed.includes(op.id))`). -/
def processQueue {π : Type} (handlers : Handlers π) (connected : Bool)
    (fuel : Nat) (st : QueueState π) : Option (QueueState π) :=
  if st.isProcessing ∨ st.queue.isEmpty then some st
  else if ¬ connected then some st
  else
    (runPass handlers fuel [] st.queue [] st.nextId).map
      fun result =>
        { queue := result.1.filter fun op => !decide (op.id ∈ result.2.1),
          nextId := result.2.2,
          isProcessing := false }

/-- `OfflineQueueService.enqueue(type, data)`: append a fresh operation
with `retries: 0`, then, if currently connected, fire `processQueue`;
returns the new state and the fresh operation's id. -/
def enqueue {π : Type} (handlers : Handlers π) (connected : Bool)
    (fuel : Nat) (type : OpType) (data : π) (st : QueueState π) :
    Option (QueueState π × Nat) :=
  let operation : QueuedOperation π :=
    { id := st.nextId, type := type, data := data, timestamp := st.nextId,
      retries := 0 }
  let st' : QueueState π :=
    { st with queue := st.queue ++ [operation], nextId := st.nextId + 1 }
  if connected then
    (processQueue handlers connected fuel st').map fun s => (s, operation.id)
  else some (st', operation.id)

/-- `OfflineQueueService.getQueueSize()`. -/
def getQueueSize {π : Type} (st : QueueState π) : Nat := st.queue.length

/-! ## SMSService (the SMS service module) -/

/-- An emergency contact as stored by the SMS service. -/
structure EmergencyContact where
  name : String
  phone : String
  type : String
deriving DecidableEq

/-- `DEFAULT_EMERGENCY_CONTACTS` from the SMS service module. -/
def DEFAULT_EMERGENCY_CONTACTS : List EmergencyContact :=
  [{ name := "Butuan CDRRMO", phone := "09171234567", type := "CDRRMO" },
   { name := "PNP Butuan", phone := "09181234567", type := "PNP" },
   { name := "BFP Butuan", phone := "09191234567", type := "BFP" }]

/-- The result values the `expo-sms` composer can report from
`SMS.sendSMSAsync`. -/
inductive SMSComposerResult
  | sent
  | cancelled
  | unknown
deriving DecidableEq

/-- Outcome of the awaited `SMS.sendSMSAsync` call: a composer result, or
a raised error (caught by the function's `catch` block). -/
inductive SMSSendOutcome
  | res (r : SMSComposerResult)
  | thrown
deriving DecidableEq

/-- The result record returned by the SMS service's send functions. -/
structure SMSResult where
  success : Bool
  message : String
  contactsNotified : List String
deriving DecidableEq

/-- `SMSService.sendEmergencySMS(location, address)`, with the awaited
collaborators as parameters: `available` is what `this.isAvailable()`
returned, `contacts` is `this.contacts`, and `outcome` is what
`SMS.sendSMSAsync` did.  (`location` and `address` only feed the SMS body
text, which the returned record does not contain.) -/
def sendEmergencySMS (available : Bool) (contacts : List EmergencyContact)
    (location : Location ℚ) (address : String) (outcome : SMSSendOutcome) :
    SMSResult :=
  if !available then
    { success := false, message := "SMS not available on this device",
      contactsNotified := [] }
  else if contacts.length = 0 then
    { success := false, message := "No emergency contacts configured",
      contactsNotified := [] }
  else
    match outcome with
    | .res .sent =>
      { success := true, message := "Emergency SMS sent",
        contactsNotified := contacts.map fun c => c.name }
    | .res .unknown =>
      { success := true, message := "Emergency SMS sent",
        contactsNotified := contacts.map fun c => c.name }
    | .res .cancelled =>
      { success := false, message := "SMS was cancelled",
        contactsNotified := [] }
    | .thrown =>
      { success := false, message := "Failed to send SMS",
        contactsNotified := [] }

/-! ## EmergencyCoordinator: `startEmergency` / `endEmergency`
(the AppProvider context module, part_001) -/

/-- The duck-typed payloads the coordinator enqueues: the
`emergency_report` payload `{latitude, longitude, timestamp, sentViaSMS}`
and the `incident_resolve` payload `{incidentId}`. -/
inductive Payload
  | report (latitude longitude : ℚ) (timestamp : Nat) (sentViaSMS : Bool)
  | resolve (incidentId : Nat)
deriving DecidableEq

/-- The fields of `emergencyApiService.reportEmergency`'s response that
`startEmergency` reads. -/
structure ReportEmergencyResponse where
  success : Bool
  incidentId : Option Nat
deriving DecidableEq

/-- The AppProvider state touched by the emergency-session actions. -/
structure AppState where
  isOnline : Bool
  currentLocation : Option (Location ℚ)
  currentAddress : String
  isEmergencyActive : Bool
  currentIncidentId : Option Nat
  qstate : QueueState Payload
  pendingOperations : Nat
deriving DecidableEq

/-- The mode tag of `startEmergency`'s result. -/
inductive StartMode
  | online
  | sms
deriving DecidableEq

/-- The object `startEmergency` returns to the UI layer. -/
structure StartResult where
  success : Bool
  incidentId : Option Nat := none
  message : Option String := none
  contactsNotified : Option (List String) := none
  mode : Option StartMode := none
deriving DecidableEq

/-- `startEmergency` from the AppProvider context.  Await outcomes of the
external collaborators are parameters: `onlineOutcome` is what the
online-path `emergencyApiService.reportEmergency` call did (`none` = it
raised, absorbed by the outer `catch`; only consulted when
`isOnline`), `smsAvailable`/`contacts`/`smsOutcome` feed the modelled
`sendEmergencySMS`, `connected` is `networkService.getStatus()` as seen
by `enqueue`, and `now` is `Date.now()` for the queued payload.  Returns
`none` only if the enqueue-triggered `processQueue` ran out of fuel. -/
def startEmergency (onlineOutcome : Option ReportEmergencyResponse)
    (smsAvailable : Bool) (contacts : List EmergencyContact)
    (smsOutcome : SMSSendOutcome) (connected : Bool) (fuel : Nat)
    (handlers : Handlers Payload) (now : Nat) (st : AppState) :
    Option (AppState × StartResult) :=
  match st.currentLocation with
  | none =>
    some (st, { success := false, message := some "No location available" })
  | some currentLocation =>
    let smsPath : Option (AppState × StartResult) :=
      let smsResult := sendEmergencySMS smsAvailable contacts
        currentLocation st.currentAddress smsOutcome
      if smsResult.success then
        (enqueue handlers connected fuel .emergency_report
            (.report currentLocation.latitude currentLocation.longitude
              now true) st.qstate).map
          fun s =>
            ({ st with
                isEmergencyActive := true, qstate := s.1,
                pendingOperations := getQueueSize s.1 },
             { success := true, message := some smsResult.message,
               contactsNotified := some smsResult.contactsNotified,
               mode := some .sms })
      else
        some (st,
          { success := false,
            message := some
              "No internet and SMS failed. Please call emergency services directly." })
    if st.isOnline then
      match onlineOutcome with
      | none =>
        some (st, { success := false,
                    message := some "Emergency report failed" })
      | some response =>
        if response.success then
          some ({ st with
                  isEmergencyActive := true,
                  currentIncidentId :=
                    match response.incidentId with
                    | some i => some i
                    | none => st.currentIncidentId },
                { success := true, incidentId := response.incidentId,
                  mode := some .online })
        else smsPath
    else smsPath

/-- `emergencyApiService.resolveIncident(incidentId)`: when offline,
enqueue an `incident_resolve` operation and return true; when online,
the database update's outcome is the parameter `supabaseOk` (`none` = the
call raised, caught and turned into `false`). -/
def resolveIncident (connected : Bool) (fuel : Nat)
    (handlers : Handlers Payload) (supabaseOk : Option Bool)
    (incidentId : Nat) (qs : QueueState Payload) :
    Option (QueueState Payload × Bool) :=
  if !connected then
    (enqueue handlers connected fuel .incident_resolve
        (.resolve incidentId) qs).map fun s => (s.1, true)
  else
    match supabaseOk with
    | some ok => some (qs, ok)
    | none => some (qs, false)

/-- `endEmergency` from the AppProvider context: if an incident id is
set, await `resolveIncident` (its boolean result is ignored); then clear
`isEmergencyActive` and `currentIncidentId` and return true.  The `catch`
returning false is unreachable in the model because every failure of the
collaborators is already absorbed inside `resolveIncident`. -/
def endEmergency (connected : Bool) (fuel : Nat)
    (handlers : Handlers Payload) (supabaseOk : Option Bool)
    (st : AppState) : Option (AppState × Bool) :=
  match st.currentIncidentId with
  | some incidentId =>
    (resolveIncident connected fuel handlers supabaseOk incidentId
        st.qstate).map
      fun s =>
        ({ st with
            qstate := s.1, isEmergencyActive := false,
            currentIncidentId := none }, true)
  | none =>
    some ({ st with isEmergencyActive := false, currentIncidentId := none },
      true)

/-! ## Helper lemmas -/

theorem listenerProcessQueueCalls_true (l : NetworkListener) :
    listenerProcessQueueCalls l true = 1 := by cases l <;> rfl

theorem sum_map_one (ls : List NetworkListener) :
    (ls.map fun _ => (1 : Nat)).sum = ls.length := by
  induction ls with
  | nil => rfl
  | cons l ls ih => simp [ih, Nat.add_comm]

/-- Invariant of the drain loop: every operation in the visited prefix is
either marked for removal or below the retry ceiling, provided every kind
has a registered handler and no handler raises.  The property propagates
from the `done` accumulator to the completed loop's final queue. -/
theorem runPass_done_invariant {π : Type} (handlers : Handlers π)
    (hT : ∀ t, (handlers t).isSome = true)
    (hNR : ∀ t f d l, handlers t = some f → f d ≠ .exn l) :
    ∀ (fuel : Nat) (todo done : List (QueuedOperation π))
      (processed : List Nat) (nextId : Nat)
      (result : List (QueuedOperation π) × List Nat × Nat),
      runPass handlers fuel done todo processed nextId = some result →
      (∀ op ∈ done, op.id ∈ processed ∨ op.retries < MAX_RETRIES) →
      ∀ op ∈ result.1, op.id ∈ result.2.1 ∨ op.retries < MAX_RETRIES := by
  intro fuel
  induction fuel with
  | zero =>
    intro todo done processed nextId result hrun hdone
    cases todo with
    | nil =>
      simp only [runPass, Option.some.injEq] at hrun
      subst hrun
      exact hdone
    | cons op rest => simp [runPass] at hrun
  | succ fuel ih =>
    intro todo done processed nextId result hrun hdone
    cases todo with
    | nil =>
      simp only [runPass, Option.some.injEq] at hrun
      subst hrun
      exact hdone
    | cons op rest =>
      obtain ⟨f, hf⟩ := Option.isSome_iff_exists.mp (hT op.type)
      rw [runPass, hf] at hrun
      cases hout : f op.data with
      | ok success newOps =>
        simp only [hout] at hrun
        cases success with
        | true =>
          refine ih _ _ _ _ _ hrun ?_
          intro x hx
          rcases List.mem_append.mp hx with hx | hx
          · rcases hdone x hx with hin | hlt
            · exact Or.inl (List.mem_append_left _ hin)
            · exact Or.inr hlt
          · rcases List.mem_singleton.mp hx with rfl
            exact Or.inl (List.mem_append_right _ (List.mem_singleton.mpr rfl))
        | false =>
          simp only at hrun
          by_cases hmax : MAX_RETRIES ≤ op.retries + 1
          · rw [if_pos hmax] at hrun
            refine ih _ _ _ _ _ hrun ?_
            intro x hx
            rcases List.mem_append.mp hx with hx | hx
            · rcases hdone x hx with hin | hlt
              · exact Or.inl (List.mem_append_left _ hin)
              · exact Or.inr hlt
            · rcases List.mem_singleton.mp hx with rfl
              exact Or.inl
                (List.mem_append_right _ (List.mem_singleton.mpr rfl))
          · rw [if_neg hmax] at hrun
            refine ih _ _ _ _ _ hrun ?_
            intro x hx
            rcases List.mem_append.mp hx with hx | hx
            · exact hdone x hx
            · rcases List.mem_singleton.mp hx with rfl
              exact Or.inr (lt_of_not_le hmax)
      | exn newOps => exact absurd hout (hNR op.type f op.data newOps hf)

/-! ## Claim theorems -/

/-- C8: for every finite non-negative distance `d`, `calculateETA` is
total and returns exactly `max(ceil(d / 30 * 60), 1)` minutes with the
default 30 km/h speed, and the one-minute floor holds even at zero
distance. -/
theorem claim8_calculateETA_formula (d : ℚ) (h : 0 ≤ d) :
    calculateETA d = max ⌈d / 30 * 60⌉ 1 ∧ 1 ≤ calculateETA d ∧
      calculateETA 0 = 1 := by
  refine ⟨rfl, le_max_right _ _, ?_⟩
  unfold calculateETA
  norm_num

/-- Witness for C8 at the spec's concrete scenario distance 0.7 km. -/
theorem claim8_witness :
    0 ≤ (7 / 10 : ℚ) ∧
      (calculateETA (7 / 10) = max ⌈(7 / 10 : ℚ) / 30 * 60⌉ 1 ∧
        1 ≤ calculateETA (7 / 10) ∧ calculateETA 0 = 1) :=
  ⟨by norm_num, claim8_calculateETA_formula (7 / 10) (by norm_num)⟩

/-- C9: the Haversine `calculateDistance` is symmetric, and the distance
from any location to itself is zero. -/
theorem claim9_distance_symm_and_self (a b : Location ℝ) :
    calculateDistance a b = calculateDistance b a ∧
      calculateDistance a a = 0 := by
  constructor
  · rw [calculateDistance_eq, calculateDistance_eq, havA_comm]
  · rw [calculateDistance_eq, havA_self]
    have h2 : atan2 (Real.sqrt 0) (Real.sqrt (1 - 0)) = 0 := by
      rw [Real.sqrt_zero, show (1 : ℝ) - 0 = 1 from by ring, Real.sqrt_one]
      unfold atan2
      rw [if_pos (by norm_num : (0 : ℝ) < 1)]
      simp
    rw [h2]
    ring

/-- C10: when the SMS composer is available and contacts are configured,
an `unknown` composer result is treated exactly like a confirmed `sent`
result — `success == true` with every contact listed in
`contactsNotified` — and among the composer results only an explicit
cancellation yields `success == false`. -/
theorem claim10_sms_unknown_like_sent (contacts : List EmergencyContact)
    (location : Location ℚ) (address : String) (h : contacts ≠ []) :
    sendEmergencySMS true contacts location address (.res .unknown) =
        sendEmergencySMS true contacts location address (.res .sent) ∧
      (sendEmergencySMS true contacts location address
          (.res .unknown)).success = true ∧
      (sendEmergencySMS true contacts location address
            (.res .unknown)).contactsNotified =
        contacts.map (fun c => c.name) ∧
      ∀ r : SMSComposerResult,
        (sendEmergencySMS true contacts location address
            (.res r)).success = false ↔ r = .cancelled := by
  have hlen : ¬ contacts.length = 0 := by
    simpa [List.length_eq_zero] using h
  refine ⟨by simp [sendEmergencySMS, hlen], by simp [sendEmergencySMS, hlen],
    by simp [sendEmergencySMS, hlen], ?_⟩
  intro r
  cases r <;> simp [sendEmergencySMS, hlen]

/-- Witness for C10 with the default emergency contacts. -/
theorem claim10_witness :
    sendEmergencySMS true DEFAULT_EMERGENCY_CONTACTS ⟨1, 2, none⟩ "Butuan"
          (.res .unknown) =
        sendEmergencySMS true DEFAULT_EMERGENCY_CONTACTS ⟨1, 2, none⟩
          "Butuan" (.res .sent) ∧
      (sendEmergencySMS true DEFAULT_EMERGENCY_CONTACTS ⟨1, 2, none⟩
          "Butuan" (.res .unknown)).success = true ∧
      (sendEmergencySMS true DEFAULT_EMERGENCY_CONTACTS ⟨1, 2, none⟩
            "Butuan" (.res .unknown)).contactsNotified =
        DEFAULT_EMERGENCY_CONTACTS.map (fun c => c.name) ∧
      ∀ r : SMSComposerResult,
        (sendEmergencySMS true DEFAULT_EMERGENCY_CONTACTS ⟨1, 2, none⟩
            "Butuan" (.res r)).success = false ↔ r = .cancelled :=
  claim10_sms_unknown_like_sent DEFAULT_EMERGENCY_CONTACTS ⟨1, 2, none⟩
    "Butuan" (by decide)

/-- C7: `getNearbyResponders` returns only available candidates whose
computed distance is at most the radius, the result is sorted ascending
by distance, and candidates at equal distance keep their original
relative order (the result filtered to any fixed distance equals the
pre-sort pipeline output filtered to that distance). -/
theorem claim7_getNearbyResponders_filter_sort
    (dist : ℚ → ℚ → ℚ → ℚ → ℚ) (location : Location ℚ) (radiusKm : ℚ)
    (responders : List SupabaseResponder) :
    (∀ r ∈ getNearbyResponders dist location radiusKm responders,
        r.distance ≤ radiusKm ∧
          ∃ c ∈ responders, c.is_available = true ∧ r.id = c.id ∧
            r.distance = dist location.latitude location.longitude
              c.latitude c.longitude) ∧
      (getNearbyResponders dist location radiusKm responders).Pairwise
        (fun a b => a.distance ≤ b.distance) ∧
      ∀ q : ℚ,
        (getNearbyResponders dist location radiusKm responders).filter
            (fun r => decide (r.distance = q)) =
          (nearbyUnsorted dist location radiusKm responders).filter
            (fun r => decide (r.distance = q)) := by
  refine ⟨?_, sortByDistance_pairwise _, fun q => sortByDistance_filter_eq q _⟩
  intro r hr
  have hr' : r ∈ nearbyUnsorted dist location radiusKm responders :=
    (sortByDistance_perm _).mem_iff.mp hr
  unfold nearbyUnsorted at hr'
  rcases List.mem_map.mp hr' with ⟨r1, hr1, rfl⟩
  rcases List.mem_filter.mp hr1 with ⟨hr2, hle⟩
  rcases List.mem_map.mp hr2 with ⟨c, hc, rfl⟩
  rcases List.mem_filter.mp hc with ⟨hcmem, hcav⟩
  exact ⟨by simpa using hle, c, hcmem, hcav, rfl, rfl⟩

/-- Concrete available responder row used by the C7 witness. -/
def respC7 : SupabaseResponder :=
  { id := 7, name := "A", type := "PNP", phone := "p", latitude := 3,
    longitude := 4, is_available := true }

/-- The ranked record `getNearbyResponders` builds from `respC7` under
the distance function that returns the candidate's latitude. -/
def rankedC7 : NearbyResponder :=
  { id := 7, name := "A", type := "PNP", phone := "p", latitude := 3,
    longitude := 4, distance := 3, estimatedArrival := calculateETA 3 }

/-- Witness for C7 on a concrete candidate list: one available responder
within the radius appears in the result with its computed distance. -/
theorem claim7_witness :
    rankedC7.distance ≤ 10 ∧
      ∃ c ∈ [respC7],
        c.is_available = true ∧ rankedC7.id = c.id ∧
          rankedC7.distance = (fun _ _ lat _ => lat : ℚ → ℚ → ℚ → ℚ → ℚ)
            (Location.latitude ⟨0, 0, none⟩) (Location.longitude ⟨0, 0, none⟩)
            c.latitude c.longitude :=
  (claim7_getNearbyResponders_filter_sort (fun _ _ lat _ => lat)
      ⟨0, 0, none⟩ 10 [respC7]).1 rankedC7
    (by
      simp [getNearbyResponders, nearbyUnsorted, sortByDistance,
        insertByDistance, respC7, rankedC7])

/-- C5 (corrected): a genuine `Disconnected→Connected` transition
triggers exactly one `processQueue` invocation per registered
connectivity listener — two with the app's wiring, where both the
`AppProvider` callback and `OfflineQueueService.onNetworkChange` are
subscribed — and a redundant `Connected→Connected` report triggers
none. -/
theorem claim5_processQueue_per_listener (ls : List NetworkListener) :
    (handleNetworkChange (some true) ⟨false, ls⟩).2 = ls.length ∧
      (handleNetworkChange (some true) ⟨true, ls⟩).2 = 0 ∧
      (handleNetworkChange (some true)
          ⟨false, [.appProvider, .offlineQueue]⟩).2 = 2 := by
  refine ⟨?_, by simp [handleNetworkChange], by decide⟩
  have hmap : (ls.map fun l => listenerProcessQueueCalls l true) =
      ls.map fun _ => (1 : Nat) :=
    List.map_congr_left fun l _ => listenerProcessQueueCalls_true l
  simp [handleNetworkChange, notifyListeners, hmap, sum_map_one]

/-- Counterexample to C5 as stated: with the app's two registered
listeners, one `Disconnected→Connected` transition triggers two
`processQueue` invocations, not exactly one. -/
theorem claim5_counterexample :
    (handleNetworkChange (some true)
        ⟨false, [.appProvider, .offlineQueue]⟩).2 ≠ 1 := by decide

/-- C6 (corrected): if the underlying connectivity fetch raises,
`checkConnection` returns `false` instead of propagating the exception,
but leaves the stored status untouched; only on a successful fetch does
`getStatus` afterwards report the value the probe returned. -/
theorem claim6_checkConnection_failure (ns : NetworkServiceState)
    (fetch : NetInfoFetch) :
    (fetch = .err → checkConnection fetch ns = (ns, false)) ∧
      ∀ c, fetch = .ok c →
        (checkConnection fetch ns).2 = c.getD false ∧
          getStatus (checkConnection fetch ns).1 =
            (checkConnection fetch ns).2 := by
  constructor
  · rintro rfl; rfl
  · rintro c rfl; exact ⟨rfl, rfl⟩

/-- Witness for C6: both branches at concrete inputs. -/
theorem claim6_witness :
    checkConnection .err ⟨true, []⟩ = (⟨true, []⟩, false) ∧
      (checkConnection (.ok (some false)) ⟨true, []⟩).2 = false ∧
        getStatus (checkConnection (.ok (some false)) ⟨true, []⟩).1 =
          (checkConnection (.ok (some false)) ⟨true, []⟩).2 :=
  ⟨(claim6_checkConnection_failure ⟨true, []⟩ .err).1 rfl,
    (claim6_checkConnection_failure ⟨true, []⟩ (.ok (some false))).2
      (some false) rfl⟩

/-- Counterexample to C6 as stated: with the stored status `true` and a
raising fetch, the probe returns `false` but `getStatus` afterwards still
reports `true`, not the value the probe returned. -/
theorem claim6_counterexample :
    (checkConnection .err ⟨true, []⟩).2 = false ∧
      getStatus (checkConnection .err ⟨true, []⟩).1 ≠
        (checkConnection .err ⟨true, []⟩).2 := by decide

/-- C1 (amended): during a completed `processQueue` drain pass, a handler
failure by returning false increments the operation's retry count by one
and marks it for end-of-pass removal once the count reaches
`MAX_RETRIES`; a handler failure by raising only increments the count and
never marks the operation, so the post-pass invariant `retryCount <
MAX_RETRIES` holds provided every kind has a registered handler and no
handler raises. -/
theorem claim1_processQueue_retry_ceiling {π : Type}
    (handlers : Handlers π) (fuel : Nat) (st st' : QueueState π)
    (hT : ∀ t, (handlers t).isSome = true)
    (hNR : ∀ t f d l, handlers t = some f → f d ≠ .exn l)
    (hP : st.isProcessing = false)
    (hrun : processQueue handlers true fuel st = some st') :
    ∀ op ∈ st'.queue, op.retries < MAX_RETRIES := by
  unfold processQueue at hrun
  rw [hP] at hrun
  by_cases hq : st.queue.isEmpty
  · rw [if_pos (by simp [hq])] at hrun
    rcases Option.some.inj hrun with rfl
    intro op hop
    rw [List.isEmpty_iff.mp hq] at hop
    cases hop
  · rw [if_neg (by simp [hq]), if_neg (by simp)] at hrun
    rcases Option.map_eq_some'.mp hrun with ⟨result, hres, rfl⟩
    intro op hop
    rcases List.mem_filter.mp hop with ⟨hmem, hdec⟩
    have hinv := runPass_done_invariant handlers hT hNR fuel st.queue [] []
      st.nextId result hres (by intro x hx; cases hx)
    rcases hinv op hmem with hin | hlt
    · rw [Bool.not_eq_true', decide_eq_false_iff_not] at hdec
      exact absurd hin hdec
    · exact hlt

/-- Handlers for the C1 witness: every kind fails by returning false. -/
def handlersC1ok : Handlers Unit := fun _ => some fun _ => .ok false []

/-- Queue state for the C1 witness: one fresh `emergency_report`
operation. -/
def stC1ok : QueueState Unit :=
  ⟨[⟨0, .emergency_report, (), 0, 0⟩], 1, false⟩

/-- Witness for C1 (amended): after a concrete completed pass the
remaining operation sits below the retry ceiling. -/
theorem claim1_witness :
    (⟨0, .emergency_report, (), 0, 1⟩ : QueuedOperation Unit).retries <
      MAX_RETRIES :=
  claim1_processQueue_retry_ceiling handlersC1ok 1 stC1ok
    ⟨[⟨0, .emergency_report, (), 0, 1⟩], 1, false⟩
    (fun t => by cases t <;> rfl)
    (fun t f d l hf => by
      cases t <;> (rcases Option.some.inj hf with rfl; simp))
    rfl (by decide) ⟨0, .emergency_report, (), 0, 1⟩ (by decide)

/-- Handlers for the C1 counterexample: the `emergency_report` handler
always raises. -/
def handlersC1exn : Handlers Unit := fun t =>
  match t with
  | .emergency_report => some fun _ => .exn []
  | _ => none

/-- Queue state for the C1 counterexample: one `emergency_report`
operation that has already failed four times. -/
def stC1exn : QueueState Unit :=
  ⟨[⟨0, .emergency_report, (), 0, 4⟩], 1, false⟩

/-- Counterexample to C1 as stated: a pass in which the handler raises on
an operation with `retries = 4` completes, yet the operation remains in
the queue with `retries = 5 = MAX_RETRIES` — the raise path increments
the count but never marks the operation for removal, so the claimed
post-pass invariant fails. -/
theorem claim1_counterexample :
    (processQueue handlersC1exn true 2 stC1exn).isSome = true ∧
      ¬ ∀ op ∈ ((processQueue handlersC1exn true 2 stC1exn).getD
          stC1exn).queue, op.retries < MAX_RETRIES := by decide

/-- C4 (amended): an operation enqueued by a handler during an active
`processQueue` pass is appended to the live queue and IS attempted by the
same pass's dispatch loop (the JavaScript `for...of` iterator re-reads
the live array): with a handler for kind A that succeeds after enqueuing
a kind-B operation, and a kind-B handler that returns false, a single
pass over a one-element queue leaves exactly the spawned operation, its
handler already attempted once (`retries = 1`). -/
theorem claim4_spawned_op_attempted_same_pass {π : Type} (dA dB : π)
    (fA fB : π → HandlerOutcome π) (handlers : Handlers π) (fuel : Nat)
    (hA : handlers .emergency_report = some fA)
    (hfA : fA dA = .ok true [(.location_update, dB)])
    (hB : handlers .location_update = some fB)
    (hfB : fB dB = .ok false []) :
    processQueue handlers true (fuel + 2)
        ⟨[⟨0, .emergency_report, dA, 0, 0⟩], 1, false⟩ =
      some ⟨[⟨1, .location_update, dB, 1, 1⟩], 2, false⟩ := by
  unfold processQueue
  rw [if_neg (by simp), if_neg (by simp)]
  dsimp only
  rw [show fuel + 2 = (fuel + 1) + 1 from rfl]
  rw [runPass, hA]
  simp only [hfA, spawnOps, List.nil_append, List.append_nil,
    List.length_cons, List.length_nil]
  rw [runPass, hB]
  simp only [hfB, spawnOps, List.nil_append, List.append_nil]
  rw [runPass]
  simp [MAX_RETRIES]

/-- Handlers for the C4 witness and counterexample: the
`emergency_report` handler succeeds after enqueuing a `location_update`;
the `location_update` handler returns false. -/
def handlersC4 : Handlers Unit := fun t =>
  match t with
  | .emergency_report => some fun _ => .ok true [(.location_update, ())]
  | .location_update => some fun _ => .ok false []
  | .incident_resolve => none

/-- Witness for C4 (amended) at a concrete handler family. -/
theorem claim4_witness :
    processQueue handlersC4 true 2
        ⟨[⟨0, .emergency_report, (), 0, 0⟩], 1, false⟩ =
      some ⟨[⟨1, .location_update, (), 1, 1⟩], 2, false⟩ :=
  claim4_spawned_op_attempted_same_pass () () _ _ handlersC4 0 rfl rfl rfl
    rfl

/-- Counterexample to C4 as stated: were the mid-pass enqueue deferred to
the next pass, the spawned operation would survive untouched
(`retries = 0`); the code instead dispatches it in the same pass, leaving
it with `retries = 1`. -/
theorem claim4_counterexample :
    ¬ (((processQueue handlersC4 true 2
            ⟨[⟨0, .emergency_report, (), 0, 0⟩], 1, false⟩).getD
          ⟨[], 0, false⟩).queue.map fun op => (op.type, op.retries)) =
        [(.location_update, 0)] ∧
      (((processQueue handlersC4 true 2
            ⟨[⟨0, .emergency_report, (), 0, 0⟩], 1, false⟩).getD
          ⟨[], 0, false⟩).queue.map fun op => (op.type, op.retries)) =
        [(.location_update, 1)] := by decide

/-- C2: when the location is present, the network monitor reports
disconnected, and the SMS channel succeeds, `startEmergency` leaves the
session Active and the previously empty offline queue holding exactly one
operation of the `emergency_report` kind. -/
theorem claim2_startEmergency_offline_sms
    (onlineOutcome : Option ReportEmergencyResponse) (smsAvailable : Bool)
    (contacts : List EmergencyContact) (smsOutcome : SMSSendOutcome)
    (fuel : Nat) (handlers : Handlers Payload) (now : Nat) (st : AppState)
    (loc : Location ℚ)
    (hloc : st.currentLocation = some loc)
    (hoff : st.isOnline = false)
    (hsms : (sendEmergencySMS smsAvailable contacts loc st.currentAddress
        smsOutcome).success = true)
    (hq : st.qstate.queue = []) :
    (startEmergency onlineOutcome smsAvailable contacts smsOutcome false
          fuel handlers now st).map
        (fun p => (p.1.isEmergencyActive,
          p.1.qstate.queue.map fun op => op.type)) =
      some (true, [OpType.emergency_report]) := by
  unfold startEmergency
  rw [hloc]
  simp only [hoff, Bool.false_eq_true, if_false]
  simp [hsms, enqueue, hq]

/-- App state used by the C2 witness: offline, located, idle session,
empty queue. -/
def stC2 : AppState :=
  { isOnline := false, currentLocation := some ⟨1, 2, none⟩,
    currentAddress := "Butuan", isEmergencyActive := false,
    currentIncidentId := none, qstate := ⟨[], 0, false⟩,
    pendingOperations := 0 }

/-- Witness for C2 at concrete inputs: offline `startEmergency` with a
successful SMS activates the session and queues one `emergency_report`. -/
theorem claim2_witness :
    (startEmergency none true DEFAULT_EMERGENCY_CONTACTS (.res .sent) false
          0 (fun _ => none) 9 stC2).map
        (fun p => (p.1.isEmergencyActive,
          p.1.qstate.queue.map fun op => op.type)) =
      some (true, [OpType.emergency_report]) :=
  claim2_startEmergency_offline_sms none true DEFAULT_EMERGENCY_CONTACTS
    (.res .sent) 0 (fun _ => none) 9 stC2 ⟨1, 2, none⟩ rfl rfl (by decide)
    rfl

/-- C3 (amended): calling `endEmergency` when no session is active (no
current incident, session already inactive) is a no-op on the state that
returns `true` — not `false` or a "no active session" marker — and, being
total, never raises. -/
theorem claim3_endEmergency_idle_noop (connected : Bool) (fuel : Nat)
    (handlers : Handlers Payload) (supabaseOk : Option Bool) (st : AppState)
    (hid : st.currentIncidentId = none)
    (hact : st.isEmergencyActive = false) :
    endEmergency connected fuel handlers supabaseOk st = some (st, true) := by
  unfold endEmergency
  rw [hid]
  cases st
  simp_all

/-- Idle app state used by the C3 witness and counterexample. -/
def stC3 : AppState :=
  { isOnline := false, currentLocation := none, currentAddress := "",
    isEmergencyActive := false, currentIncidentId := none,
    qstate := ⟨[], 0, false⟩, pendingOperations := 0 }

/-- Witness for C3 (amended): the concrete idle call returns the state
unchanged with result `true`. -/
theorem claim3_witness :
    endEmergency false 0 (fun _ => none) none stC3 = some (stC3, true) :=
  claim3_endEmergency_idle_noop false 0 (fun _ => none) none stC3 rfl rfl

/-- Counterexample to C3 as stated: on an already-idle session
`endEmergency` returns `true` (its result type has no "no active
session" variant), not the claimed `false`. -/
theorem claim3_counterexample :
    ¬ ((endEmergency false 0 (fun _ => none) none stC3).map
          (fun p => p.2) = some false) ∧
      (endEmergency false 0 (fun _ => none) none stC3).map (fun p => p.2) =
        some true := by decide

end EmergencyApp
